import Mathlib

/-!
Shallow embedding of the bolt-quotation document lifecycle and pricing engine.

Numbers (prices, amounts, quantities, rates) are modelled as rationals.
Persisted collections (quotations, invoices, orders) are modelled as
association lists from string ids to records, mirroring the object maps of
the source; the persisted next-number counters are modelled by their numeric
serial component (the stored string is always the prefix followed by the
zero-padded decimal numeral of that component).
-/

namespace BoltQuotation

/-- Tax split type, from GSTCalculation.type in src/hooks (gstCalculator section). -/
inductive GstType
  | INTRASTATE
  | INTERSTATE
deriving DecidableEq, Repr

/-- Postal address, from Address in src/types/index.ts. -/
structure Address where
  street : String
  city : String
  state : String
  pin : String
  country : String
deriving DecidableEq, Repr

/-- Customer record, from Customer in src/types/index.ts (the fields the
pricing and tax code reads). -/
structure Customer where
  company_name : String
  contact_person : String
  billing_address : Address
  shipping_address : Address
  discount_rate : ℚ
  payment_terms : String
deriving DecidableEq, Repr

/-- Seller address, from COMPANY_INFO.address. -/
structure CompanyAddress where
  city : String
  state : String
deriving DecidableEq, Repr

/-- Seller identity, from CompanyInfo in src/types/index.ts. -/
structure CompanyInfo where
  name : String
  gstn : String
  address : CompanyAddress
deriving DecidableEq, Repr

/-- Seller constant, from COMPANY_INFO in the gstCalculator section. -/
def COMPANY_INFO : CompanyInfo :=
  { name := "Dexterous Manufacturing Labs Pvt Ltd"
    gstn := "29AAGCD4100R2ZC"
    address := { city := "Bangalore", state := "Karnataka" } }

/-- Result of the tax computation, from GSTCalculation. -/
structure GSTCalculation where
  cgst : ℚ
  sgst : ℚ
  igst : ℚ
  total : ℚ
  type : GstType
deriving DecidableEq, Repr

/-- Lowercasing as toLowerCase performs it, mapped over the characters of
the string (modelled on the character list so that it evaluates by
kernel reduction). -/
def jsToLower (s : String) : String :=
  ⟨s.data.map Char.toLower⟩

/-- Embeds calculateGST from the gstCalculator section of
src/hooks/useSavedQuotations.ts: intrastate (shipping state lowercased
equal to "karnataka") splits 9 percent CGST plus 9 percent SGST,
otherwise 18 percent IGST. -/
def calculateGST (baseAmount : ℚ) (customer : Customer) : GSTCalculation :=
  let isIntrastate := jsToLower customer.shipping_address.state = "karnataka"
  if isIntrastate then
    let cgst := baseAmount * (9 / 100)
    let sgst := baseAmount * (9 / 100)
    { cgst := cgst, sgst := sgst, igst := 0, total := cgst + sgst
      type := GstType.INTRASTATE }
  else
    let igst := baseAmount * (18 / 100)
    { cgst := 0, sgst := 0, igst := igst, total := igst
      type := GstType.INTERSTATE }

/-- Year-month-day stamp used by the number generators (the two-digit
pieces of the current date). -/
structure DateStamp where
  yy : ℕ
  mm : ℕ
  dd : ℕ
deriving DecidableEq, Repr

/-- Digits of a counter value, little-endian, zero-padded at the high end
to at least four digits. Embeds the padStart of String(n) performed by
the number generators (the high-end padding of the big-endian string is
the tail of the little-endian digit list). -/
def pad4LE (n : ℕ) : List ℕ :=
  Nat.digits 10 n ++ List.replicate (4 - (Nat.digits 10 n).length) 0

/-- Human-readable document number: family tag, date code and the serial
digits, embedding the string prefix ++ YYMMDD ++ serial produced by
generateQuotationNumber, generateInvoiceNumber and generateOrderNumber. -/
structure DocNumber where
  tag : String
  date : DateStamp
  serialDigits : List ℕ
deriving DecidableEq, Repr

/-- Numeric serial encoded in an issued document number (the integer read
back from its serial digits). -/
def extractSerial (n : DocNumber) : ℕ :=
  Nat.ofDigits 10 n.serialDigits

/-- Embeds generateQuotationNumber from src/hooks/useSavedQuotations.ts. -/
def generateQuotationNumber (counter : ℕ) (d : DateStamp) : DocNumber :=
  { tag := "QT", date := d, serialDigits := pad4LE counter }

/-- Embeds generateInvoiceNumber from the useSavedInvoices section. -/
def generateInvoiceNumber (counter : ℕ) (d : DateStamp) : DocNumber :=
  { tag := "INV", date := d, serialDigits := pad4LE counter }

/-- Embeds generateOrderNumber from the useOrders section. -/
def generateOrderNumber (counter : ℕ) (d : DateStamp) : DocNumber :=
  { tag := "ORD", date := d, serialDigits := pad4LE counter }

/-- Line item, from QuotationPart in src/types/index.ts (the File handle
and transient selection flag of the UI are omitted, as in the stored
Omit form used by saved quotations and invoices). -/
structure QuotationPart where
  id : String
  serialNumber : ℕ
  fileName : String
  fileType : String
  volume : ℚ
  boundingBox : Option (ℚ × ℚ × ℚ)
  technology : Option String
  material : Option String
  quantity : ℚ
  unitPrice : ℚ
  totalPrice : ℚ
  gstAmount : ℚ
  finalPrice : ℚ
  comments : Option String
deriving DecidableEq, Repr

/-- Flat extra charge, from ServiceCharge in src/types/index.ts. -/
structure ServiceCharge where
  id : String
  description : String
  amount : ℚ
deriving DecidableEq, Repr

/-- Quotation status, from SavedQuotation.status. -/
inductive QuotationStatus
  | Draft
  | Sent
  | Approved
  | Rejected
  | Expired
deriving DecidableEq, Repr

/-- Invoice status, from SavedInvoice.status. -/
inductive InvoiceStatus
  | Draft
  | Sent
  | Paid
  | Overdue
  | Cancelled
deriving DecidableEq, Repr

/-- Order status, from OrderStatus in src/types/index.ts. -/
inductive OrderStatus
  | New
  | Produced
  | Dispatched
  | Cancelled
deriving DecidableEq, Repr

/-- Shipping address choice, from the shippingAddressType fields. -/
inductive ShipAddrType
  | billing
  | shipping
deriving DecidableEq, Repr

/-- Payment method enumeration, from Payment.paymentMethod. -/
inductive PaymentMethod
  | Cash
  | BankTransfer
  | Cheque
  | UPI
  | Card
  | Other
deriving DecidableEq, Repr

/-- Payment record, from Payment in src/types/index.ts. -/
structure Payment where
  id : String
  amount : ℚ
  paymentDate : String
  paymentMethod : PaymentMethod
  referenceNumber : Option String
  notes : Option String
  createdAt : String
deriving DecidableEq, Repr

/-- Saved quotation, from SavedQuotation in src/types/index.ts. -/
structure SavedQuotation where
  id : String
  quotationNumber : DocNumber
  customerId : String
  customerName : String
  parts : List QuotationPart
  totalBasePrice : ℚ
  discount : ℚ
  totalGST : ℚ
  finalPrice : ℚ
  status : QuotationStatus
  createdAt : String
  updatedAt : String
  notes : String
  validUntil : String
  gstType : GstType
  paymentTerms : Option String
  leadTime : Option String
  shippingAddressType : Option ShipAddrType
  serviceCharges : List ServiceCharge
  totalServiceCharges : ℚ
deriving DecidableEq, Repr

/-- Saved invoice, from SavedInvoice in src/types/index.ts. The due date
is modelled as a millisecond timestamp (the source stores an ISO string
and compares it through Date objects). -/
structure SavedInvoice where
  id : String
  invoiceNumber : DocNumber
  quotationId : String
  quotationNumber : DocNumber
  customerId : String
  customerName : String
  parts : List QuotationPart
  totalBasePrice : ℚ
  discount : ℚ
  totalGST : ℚ
  finalPrice : ℚ
  status : InvoiceStatus
  createdAt : String
  updatedAt : String
  dueDate : Int
  notes : String
  gstType : GstType
  shippingAddressType : Option ShipAddrType
  payments : List Payment
  totalPaid : ℚ
  remainingAmount : ℚ
  serviceCharges : List ServiceCharge
  totalServiceCharges : ℚ
deriving DecidableEq, Repr

/-- Production part, from OrderPart in src/types/index.ts (no pricing
fields exist on this record). -/
structure OrderPart where
  id : String
  serialNumber : ℕ
  fileName : String
  fileType : String
  volume : ℚ
  boundingBox : Option (ℚ × ℚ × ℚ)
  technology : Option String
  material : Option String
  quantity : ℚ
  comments : Option String
deriving DecidableEq, Repr

/-- Production order, from Order in src/types/index.ts. -/
structure Order where
  id : String
  orderNumber : DocNumber
  invoiceId : String
  invoiceNumber : DocNumber
  customerId : String
  parts : List OrderPart
  status : OrderStatus
  createdAt : String
  updatedAt : String
  serviceCharges : List ServiceCharge
  totalServiceCharges : ℚ
deriving DecidableEq, Repr

/-- Persisted quotation collection, from SavedQuotationsData; the counter
is its numeric serial component. -/
structure SavedQuotationsData where
  quotations : List (String × SavedQuotation)
  last_updated : String
  next_quotation_number : ℕ
deriving DecidableEq, Repr

/-- Persisted invoice collection, from SavedInvoicesData. -/
structure SavedInvoicesData where
  invoices : List (String × SavedInvoice)
  last_updated : String
  next_invoice_number : ℕ
deriving DecidableEq, Repr

/-- Persisted order collection, from OrdersData. -/
structure OrdersData where
  orders : List (String × Order)
  last_updated : String
  next_order_number : ℕ
deriving DecidableEq, Repr

/-- Key lookup in a persisted collection (object property read). -/
def storeGet {α : Type} (l : List (String × α)) (k : String) : Option α :=
  l.lookup k

/-- Key removal from a persisted collection (the delete statement on a
copied object). -/
def storeDelete {α : Type} (l : List (String × α)) (k : String) :
    List (String × α) :=
  l.filter (fun kv => kv.1 != k)

/-- Key insertion or replacement in a persisted collection (object spread
followed by a computed-key assignment). -/
def storePut {α : Type} (l : List (String × α)) (k : String) (v : α) :
    List (String × α) :=
  (k, v) :: storeDelete l k

/-- Caller-supplied payment fields, from the Omit of id and createdAt in
the addPayment signature. -/
structure PaymentInput where
  amount : ℚ
  paymentDate : String
  paymentMethod : PaymentMethod
  referenceNumber : Option String
  notes : Option String
deriving DecidableEq, Repr

/-- Running sum of payment amounts (the reduce with initial value 0 used
by addPayment and removePayment). -/
def sumAmounts (l : List Payment) : ℚ :=
  l.foldl (fun s p => s + p.amount) 0

/-- Status recomputation shared by addPayment and removePayment: paid when
nothing remains; a formerly paid invoice with a balance again becomes
Overdue or Sent depending on the due date; otherwise the status is kept. -/
def recomputeStatus (oldStatus : InvoiceStatus) (newRemainingAmount : ℚ)
    (dueDate nowMs : Int) : InvoiceStatus :=
  if newRemainingAmount ≤ 0 then InvoiceStatus.Paid
  else if oldStatus = InvoiceStatus.Paid then
    if dueDate < nowMs then InvoiceStatus.Overdue else InvoiceStatus.Sent
  else oldStatus

/-- Per-invoice body of addPayment from the useSavedInvoices section:
append the payment with a generated id and timestamp, recompute totalPaid
and remainingAmount from the whole list, and rederive the status. -/
def addPaymentInv (invoice : SavedInvoice) (payment : PaymentInput)
    (genId : String) (nowMs : Int) (nowIso : String) : SavedInvoice :=
  let newPayment : Payment :=
    { id := genId, amount := payment.amount, paymentDate := payment.paymentDate
      paymentMethod := payment.paymentMethod
      referenceNumber := payment.referenceNumber, notes := payment.notes
      createdAt := nowIso }
  let updatedPayments := invoice.payments ++ [newPayment]
  let newTotalPaid := sumAmounts updatedPayments
  let newRemainingAmount := invoice.finalPrice - newTotalPaid
  let newStatus := recomputeStatus invoice.status newRemainingAmount invoice.dueDate nowMs
  { invoice with
    payments := updatedPayments
    totalPaid := newTotalPaid
    remainingAmount := newRemainingAmount
    status := newStatus
    updatedAt := nowIso }

/-- Per-invoice body of removePayment from the useSavedInvoices section:
drop the payment by id and recompute identically to addPaymentInv. -/
def removePaymentInv (invoice : SavedInvoice) (paymentId : String)
    (nowMs : Int) (nowIso : String) : SavedInvoice :=
  let updatedPayments := invoice.payments.filter (fun p => p.id != paymentId)
  let newTotalPaid := sumAmounts updatedPayments
  let newRemainingAmount := invoice.finalPrice - newTotalPaid
  let newStatus := recomputeStatus invoice.status newRemainingAmount invoice.dueDate nowMs
  { invoice with
    payments := updatedPayments
    totalPaid := newTotalPaid
    remainingAmount := newRemainingAmount
    status := newStatus
    updatedAt := nowIso }

/-- Embeds addPayment from the useSavedInvoices section: on a missing
invoice id it returns the store untouched (the early return), otherwise
it stores the updated invoice. -/
def addPayment (data : SavedInvoicesData) (invoiceId : String)
    (payment : PaymentInput) (genId : String) (nowMs : Int) (nowIso : String) :
    SavedInvoicesData :=
  match storeGet data.invoices invoiceId with
  | none => data
  | some invoice =>
      { data with
        invoices := storePut data.invoices invoiceId
          (addPaymentInv invoice payment genId nowMs nowIso)
        last_updated := nowIso }

/-- Embeds removePayment from the useSavedInvoices section; same missing
id behaviour as addPayment. -/
def removePayment (data : SavedInvoicesData) (invoiceId : String)
    (paymentId : String) (nowMs : Int) (nowIso : String) : SavedInvoicesData :=
  match storeGet data.invoices invoiceId with
  | none => data
  | some invoice =>
      { data with
        invoices := storePut data.invoices invoiceId
          (removePaymentInv invoice paymentId nowMs nowIso)
        last_updated := nowIso }

/-- Embeds deleteQuotation from src/hooks/useSavedQuotations.ts. -/
def deleteQuotation (data : SavedQuotationsData) (quotationId : String)
    (nowIso : String) : SavedQuotationsData :=
  { data with
    quotations := storeDelete data.quotations quotationId
    last_updated := nowIso }

/-- Embeds deleteOrder from the useOrders section. -/
def deleteOrder (data : OrdersData) (orderId : String) (nowIso : String) :
    OrdersData :=
  { data with
    orders := storeDelete data.orders orderId
    last_updated := nowIso }

/-- Embeds deleteInvoice from the useSavedInvoices section: when the
invoice exists, the first order whose invoice back-reference matches is
removed from the order store, then the invoice itself is deleted. -/
def deleteInvoice (iData : SavedInvoicesData) (oData : OrdersData)
    (invoiceId : String) (nowIso : String) : SavedInvoicesData × OrdersData :=
  let oData' :=
    match storeGet iData.invoices invoiceId with
    | none => oData
    | some _ =>
        match oData.orders.find? (fun kv => kv.2.invoiceId == invoiceId) with
        | some kv =>
            { oData with
              orders := storeDelete oData.orders kv.1
              last_updated := nowIso }
        | none => oData
  ({ iData with
     invoices := storeDelete iData.invoices invoiceId
     last_updated := nowIso }, oData')

/-- Milliseconds per day, used by the due-date arithmetic. -/
def msPerDay : Int := 86400000

/-- Payment terms effectively used by createInvoiceFromQuotation: the
quotation value when it is a nonempty string, else the default Net 30. -/
def effectivePaymentTerms (pt : Option String) : String :=
  match pt with
  | some s => if s = "" then "Net 30" else s
  | none => "Net 30"

/-- Due-date rule of createInvoiceFromQuotation: advance terms fall due
immediately, delivery terms in 7 days, Net N terms in N days (30 when the
day count does not parse), anything else in 30 days. -/
def computeDueDate (paymentTerms : String) (nowMs : Int) : Int :=
  if paymentTerms = "100% advance" then nowMs
  else if paymentTerms = "60% advance and rest upon delivery" then nowMs
  else if paymentTerms = "Payment on delivery" then nowMs + 7 * msPerDay
  else if paymentTerms.startsWith "Net " then
    match (paymentTerms.drop 4).toNat? with
    | some days => nowMs + (days : Int) * msPerDay
    | none => nowMs + 30 * msPerDay
  else nowMs + 30 * msPerDay

/-- Embeds createOrder from the useOrders section: the invoice parts are
reduced to their production fields, service charges and their total are
copied from the invoice, and the order counter advances by one. The fresh
order id and the clock are passed in explicitly. Returns the new store
and the id of the created order. -/
def createOrder (data : OrdersData) (invoice : SavedInvoice)
    (orderId : String) (nowIso : String) (d : DateStamp) :
    OrdersData × String :=
  let orderNumber := generateOrderNumber data.next_order_number d
  let orderParts : List OrderPart := invoice.parts.map (fun part =>
    { id := part.id
      serialNumber := part.serialNumber
      fileName := part.fileName
      fileType := part.fileType
      volume := part.volume
      boundingBox := part.boundingBox
      technology := part.technology
      material := part.material
      quantity := part.quantity
      comments := part.comments })
  let newOrder : Order :=
    { id := orderId
      orderNumber := orderNumber
      invoiceId := invoice.id
      invoiceNumber := invoice.invoiceNumber
      customerId := invoice.customerId
      parts := orderParts
      status := OrderStatus.New
      createdAt := nowIso
      updatedAt := nowIso
      serviceCharges := invoice.serviceCharges
      totalServiceCharges := invoice.totalServiceCharges }
  ({ orders := storePut data.orders orderId newOrder
     last_updated := nowIso
     next_order_number := data.next_order_number + 1 }, orderId)

/-- Embeds createInvoiceFromQuotation from the useSavedInvoices section,
wired as in SavedQuotationsPage (onQuotationDeleted = deleteQuotation) and
followed by the synchronous createOrder call: the invoice copies the
quotation data, starts with an empty ledger and remainingAmount equal to
the quotation finalPrice, the invoice counter advances by one, the source
quotation is deleted, and a dependent order is created. Fresh ids and the
clock are passed in explicitly. -/
def createInvoiceFromQuotation (qData : SavedQuotationsData)
    (iData : SavedInvoicesData) (oData : OrdersData)
    (quotation : SavedQuotation) (invoiceId orderId : String)
    (nowMs : Int) (nowIso : String) (d : DateStamp) :
    SavedQuotationsData × SavedInvoicesData × OrdersData × String :=
  let paymentTerms := effectivePaymentTerms quotation.paymentTerms
  let dueDate := computeDueDate paymentTerms nowMs
  let invoiceNumber := generateInvoiceNumber iData.next_invoice_number d
  let newInvoice : SavedInvoice :=
    { id := invoiceId
      invoiceNumber := invoiceNumber
      quotationId := quotation.id
      quotationNumber := quotation.quotationNumber
      customerId := quotation.customerId
      customerName := quotation.customerName
      parts := quotation.parts
      totalBasePrice := quotation.totalBasePrice
      discount := quotation.discount
      totalGST := quotation.totalGST
      finalPrice := quotation.finalPrice
      status := InvoiceStatus.Draft
      createdAt := nowIso
      updatedAt := nowIso
      dueDate := dueDate
      notes := quotation.notes
      gstType := quotation.gstType
      shippingAddressType := some (quotation.shippingAddressType.getD ShipAddrType.shipping)
      serviceCharges := quotation.serviceCharges
      totalServiceCharges := quotation.totalServiceCharges
      payments := []
      totalPaid := 0
      remainingAmount := quotation.finalPrice }
  let iData' : SavedInvoicesData :=
    { invoices := storePut iData.invoices invoiceId newInvoice
      last_updated := nowIso
      next_invoice_number := iData.next_invoice_number + 1 }
  let qData' := deleteQuotation qData quotation.id nowIso
  let oData' := (createOrder oData newInvoice orderId nowIso d).1
  (qData', iData', oData', invoiceId)

/-- Parameters of saveQuotation, from SaveQuotationParams in
src/hooks/useSavedQuotations.ts; the id field of each incoming part is
overwritten during the save, matching the Omit in the source. -/
structure SaveQuotationParams where
  customerId : String
  customerName : String
  parts : List QuotationPart
  totalBasePrice : ℚ
  discount : ℚ
  totalGST : ℚ
  finalPrice : ℚ
  gstType : GstType
  notes : String
  paymentTerms : Option String
  leadTime : Option String
  shippingAddressType : Option ShipAddrType
  serviceCharges : List ServiceCharge
  totalServiceCharges : ℚ
  existingQuotationId : Option String
deriving DecidableEq, Repr

/-- Quotation record assembled by the new-document branch of
saveQuotation: a fresh id, a number issued from the counter, Draft
status, the part ids rewritten from the fresh quotation id, and a
30-day validity stamp supplied by the caller. -/
def newQuotationRecord (data : SavedQuotationsData)
    (params : SaveQuotationParams) (freshId : String) (nowIso : String)
    (validUntilIso : String) (d : DateStamp) : SavedQuotation :=
  { id := freshId
    quotationNumber := generateQuotationNumber data.next_quotation_number d
    customerId := params.customerId
    customerName := params.customerName
    parts := params.parts.mapIdx (fun index part =>
      { part with id := freshId ++ "_part_" ++ toString (index + 1) })
    totalBasePrice := params.totalBasePrice
    discount := params.discount
    totalGST := params.totalGST
    finalPrice := params.finalPrice
    status := QuotationStatus.Draft
    createdAt := nowIso
    updatedAt := nowIso
    notes := params.notes
    paymentTerms := params.paymentTerms
    leadTime := params.leadTime
    shippingAddressType := params.shippingAddressType
    serviceCharges := params.serviceCharges
    totalServiceCharges := params.totalServiceCharges
    validUntil := validUntilIso
    gstType := params.gstType }

/-- Embeds saveQuotation from src/hooks/useSavedQuotations.ts. The edit
branch fails on an unknown quotation id (the thrown error); the new
branch issues a number from the counter, stores the quotation under the
supplied fresh id and advances the counter by one. Clock values and the
fresh id are passed in explicitly. -/
def saveQuotation (data : SavedQuotationsData) (params : SaveQuotationParams)
    (freshId : String) (nowIso : String) (validUntilIso : String)
    (d : DateStamp) : Except String (SavedQuotationsData × String) :=
  match params.existingQuotationId with
  | some qid =>
    match storeGet data.quotations qid with
    | none => Except.error "Quotation not found for editing"
    | some existingQuotation =>
      let updatedQuotation : SavedQuotation :=
        { existingQuotation with
          customerId := params.customerId
          customerName := params.customerName
          parts := params.parts.mapIdx (fun index part =>
            { part with id := qid ++ "_part_" ++ toString (index + 1) })
          totalBasePrice := params.totalBasePrice
          discount := params.discount
          totalGST := params.totalGST
          finalPrice := params.finalPrice
          updatedAt := nowIso
          notes := params.notes
          paymentTerms := params.paymentTerms
          leadTime := params.leadTime
          shippingAddressType := params.shippingAddressType
          serviceCharges := params.serviceCharges
          totalServiceCharges := params.totalServiceCharges
          validUntil := validUntilIso
          gstType := params.gstType
          status := QuotationStatus.Draft }
      Except.ok
        ({ data with
           quotations := storePut data.quotations qid updatedQuotation
           last_updated := nowIso }, qid)
  | none =>
    let newQuotation :=
      newQuotationRecord data params freshId nowIso validUntilIso d
    Except.ok
      ({ quotations := storePut data.quotations freshId newQuotation
         last_updated := nowIso
         next_quotation_number := data.next_quotation_number + 1 }, freshId)

/-- One new-quotation save in a numbering run: the per-call inputs of
saveQuotation other than the store (the calendar date may differ at every
call). -/
structure SaveStep where
  params : SaveQuotationParams
  freshId : String
  nowIso : String
  validUntilIso : String
  date : DateStamp
deriving DecidableEq, Repr

/-- Repeated new-document saves against the same quotation store, reading
back the issued numbers from the store; the existingQuotationId of every
step is discarded so each call takes the number-issuing branch of
saveQuotation. -/
def saveRun : SavedQuotationsData → List SaveStep →
    SavedQuotationsData × List DocNumber
  | data, [] => (data, [])
  | data, step :: rest =>
    match saveQuotation data { step.params with existingQuotationId := none }
        step.freshId step.nowIso step.validUntilIso step.date with
    | Except.ok (data', qid) =>
      let issued :=
        match storeGet data'.quotations qid with
        | some sq => [sq.quotationNumber]
        | none => []
      let res := saveRun data' rest
      (res.1, issued ++ res.2)
    | Except.error _ => saveRun data rest

/-- Process and material catalog, from TechnologiesData. The nested
object lookups technologies[t].materials[m].cost_per_cc are modelled as a
total rate function (the code performs them only after checking that a
technology and material are set on the part). -/
structure TechnologiesData where
  rate : String → String → ℚ

/-- Truthiness of an optional string field, as JavaScript evaluates it:
present and nonempty. -/
def truthy (o : Option String) : Bool :=
  match o with
  | some s => s != ""
  | none => false

/-- Partial field update, from the Partial QuotationPart objects passed to
handleUpdatePart and handleUpdateParts. The outer Option marks whether
the property is present on the update object; for technology and material
the inner Option is the explicit undefined the bulk panel assigns. -/
structure PartUpdate where
  technology : Option (Option String) := none
  material : Option (Option String) := none
  quantity : Option ℚ := none
  unitPrice : Option ℚ := none
  totalPrice : Option ℚ := none
  gstAmount : Option ℚ := none
  finalPrice : Option ℚ := none
deriving DecidableEq, Repr

/-- Truthiness of an update property holding an optional string: present,
defined and nonempty. -/
def truthyUpd (u : Option (Option String)) : Bool :=
  match u with
  | some o => truthy o
  | none => false

/-- String carried by an update property (empty when absent), used where
the source indexes the catalog with the update value directly. -/
def updStr (u : Option (Option String)) : String :=
  ((u.getD none).getD "")

/-- Object spread of an update over a part: every property present on the
update overwrites the part field, including properties explicitly set to
undefined. -/
def applyUpdate (part : QuotationPart) (u : PartUpdate) : QuotationPart :=
  { part with
    technology := u.technology.getD part.technology
    material := u.material.getD part.material
    quantity := u.quantity.getD part.quantity
    unitPrice := u.unitPrice.getD part.unitPrice
    totalPrice := u.totalPrice.getD part.totalPrice
    gstAmount := u.gstAmount.getD part.gstAmount
    finalPrice := u.finalPrice.getD part.finalPrice }

/-- Pricing block zeroed, as assigned by the technology-without-material
branch. -/
def zeroPricing (part : QuotationPart) : QuotationPart :=
  { part with unitPrice := 0, totalPrice := 0, gstAmount := 0, finalPrice := 0 }

/-- Per-part body of handleUpdateParts from
src/components/quotations/QuotationPage.tsx: after the spread, the first
matching branch of the condition chain runs — quantity present with a
customer and a resolvable material and technology recomputes the full
pricing block at the new quantity; else a present material with a
customer and a technology recomputes the full block at the existing
quantity; else a present technology without material zeroes the block. -/
def bulkEditPart (technologiesData : TechnologiesData)
    (selectedCustomer : Option Customer) (updates : PartUpdate)
    (part : QuotationPart) : QuotationPart :=
  let updatedPart := applyUpdate part updates
  match selectedCustomer with
  | some c =>
    if updates.quantity.isSome && truthy updatedPart.material
        && truthy updatedPart.technology then
      let q := updates.quantity.getD updatedPart.quantity
      let rate := technologiesData.rate (updatedPart.technology.getD "")
        (updatedPart.material.getD "")
      let unitPrice := updatedPart.volume * rate
      let totalPrice := unitPrice * q
      let gstCalculation := calculateGST totalPrice c
      let finalPrice := totalPrice + gstCalculation.total
      { updatedPart with
        unitPrice := unitPrice, totalPrice := totalPrice
        gstAmount := gstCalculation.total, finalPrice := finalPrice }
    else if truthyUpd updates.material && truthy updatedPart.technology then
      let rate := technologiesData.rate (updatedPart.technology.getD "")
        (updStr updates.material)
      let unitPrice := updatedPart.volume * rate
      let totalPrice := unitPrice * updatedPart.quantity
      let gstCalculation := calculateGST totalPrice c
      let finalPrice := totalPrice + gstCalculation.total
      { updatedPart with
        unitPrice := unitPrice, totalPrice := totalPrice
        gstAmount := gstCalculation.total, finalPrice := finalPrice }
    else if truthyUpd updates.technology && !(truthyUpd updates.material) then
      zeroPricing updatedPart
    else updatedPart
  | none =>
    if truthyUpd updates.technology && !(truthyUpd updates.material) then
      zeroPricing updatedPart
    else updatedPart

/-- Embeds handleUpdateParts from
src/components/quotations/QuotationPage.tsx: maps over the full part
list, transforming exactly the parts whose id is in the selected id list. -/
def handleUpdateParts (parts : List QuotationPart) (partIds : List String)
    (updates : PartUpdate) (selectedCustomer : Option Customer)
    (technologiesData : TechnologiesData) : List QuotationPart :=
  parts.map (fun part =>
    if partIds.contains part.id then
      bulkEditPart technologiesData selectedCustomer updates part
    else part)

/-- Truthiness of the quantity update property as evaluated inside
handleUpdatePart (a present zero is falsy there). -/
def qtyTruthy (u : Option ℚ) : Bool :=
  match u with
  | some q => q != 0
  | none => false

/-- Embeds the single-part handleUpdatePart from
src/components/quotations/QuotationPage.tsx: spread the update, then with
a customer and a resolvable material and technology, a truthy material or
quantity on the update triggers a full pricing recompute. -/
def handleUpdatePartSingle (technologiesData : TechnologiesData)
    (selectedCustomer : Option Customer) (part : QuotationPart)
    (updates : PartUpdate) : QuotationPart :=
  let updatedPart := applyUpdate part updates
  match selectedCustomer with
  | some c =>
    if truthy updatedPart.material && truthy updatedPart.technology
        && (truthyUpd updates.material || qtyTruthy updates.quantity) then
      let rate := technologiesData.rate (updatedPart.technology.getD "")
        (updatedPart.material.getD "")
      let unitPrice := updatedPart.volume * rate
      let totalPrice := unitPrice * updatedPart.quantity
      let gstCalculation := calculateGST totalPrice c
      let finalPrice := totalPrice + gstCalculation.total
      { updatedPart with
        unitPrice := unitPrice, totalPrice := totalPrice
        gstAmount := gstCalculation.total, finalPrice := finalPrice }
    else updatedPart
  | none => updatedPart

/-- Embeds the single-selection path of handleQuantityChange in
src/components/quotations/PartCard.tsx composed with the onUpdatePart
callback (handleUpdatePart): the new line total comes from the stored
unitPrice; tax is computed only when a customer is present and the total
is positive, otherwise zero. -/
def quantityChangeFlow (technologiesData : TechnologiesData)
    (customer : Option Customer) (part : QuotationPart) (quantity : ℚ) :
    QuotationPart :=
  let totalPrice := part.unitPrice * quantity
  let taxed :=
    match customer with
    | some c =>
      if totalPrice > 0 then
        let gstCalculation := calculateGST totalPrice c
        (gstCalculation.total, totalPrice + gstCalculation.total)
      else ((0 : ℚ), totalPrice)
    | none => ((0 : ℚ), totalPrice)
  let updates : PartUpdate :=
    { quantity := some quantity
      totalPrice := some totalPrice
      gstAmount := some taxed.1
      finalPrice := some taxed.2 }
  handleUpdatePartSingle technologiesData customer part updates

/-- Embeds the single-selection path of handleMaterialChange in
src/components/quotations/PartCard.tsx composed with the onUpdatePart
callback: without a truthy technology or without a customer the handler
returns early and the part is left untouched; otherwise the pricing block
is recomputed from the part volume and the new material rate. -/
def materialChangeFlow (technologiesData : TechnologiesData)
    (customer : Option Customer) (part : QuotationPart)
    (materialId : String) : QuotationPart :=
  match customer with
  | none => part
  | some c =>
    if !(truthy part.technology) then part
    else
      let rate := technologiesData.rate (part.technology.getD "") materialId
      let unitPrice := part.volume * rate
      let totalPrice := unitPrice * part.quantity
      let gstCalculation := calculateGST totalPrice c
      let finalPrice := totalPrice + gstCalculation.total
      let updates : PartUpdate :=
        { material := some (some materialId)
          unitPrice := some unitPrice
          totalPrice := some totalPrice
          gstAmount := some gstCalculation.total
          finalPrice := some finalPrice }
      handleUpdatePartSingle technologiesData customer part updates

/-! Sample data used by witnesses and counterexamples. -/

/-- Sample address whose state matches the seller state only up to case. -/
def sampleAddressKA : Address :=
  { street := "1 Main Rd", city := "Bengaluru", state := "KARNATAKA"
    pin := "560001", country := "India" }

/-- Sample address in another state. -/
def sampleAddressMH : Address :=
  { street := "2 Hill Rd", city := "Mumbai", state := "Maharashtra"
    pin := "400001", country := "India" }

/-- Sample in-state customer. -/
def sampleCustomerKA : Customer :=
  { company_name := "Acme Tools", contact_person := "A. Rao"
    billing_address := sampleAddressKA, shipping_address := sampleAddressKA
    discount_rate := 0, payment_terms := "Net 30" }

/-- Sample out-of-state customer. -/
def sampleCustomerMH : Customer :=
  { company_name := "Bay Castings", contact_person := "B. Shah"
    billing_address := sampleAddressMH, shipping_address := sampleAddressMH
    discount_rate := 0, payment_terms := "Net 30" }

/-- C1: for every amount a ≥ 0 and customer, calculateGST returns the
dual INTRASTATE split cgst = sgst = a * 9 percent with igst = 0 when the
shipping state equals the seller home state case-insensitively, and
otherwise the single INTERSTATE component igst = a * 18 percent with
cgst = sgst = 0; in both cases the returned total is a * 18 percent. -/
theorem calculateGST_mode_split_and_total (a : ℚ) (c : Customer)
    (ha : 0 ≤ a) :
    (jsToLower c.shipping_address.state = jsToLower COMPANY_INFO.address.state →
      calculateGST a c =
        { cgst := a * (9 / 100), sgst := a * (9 / 100), igst := 0
          total := a * (18 / 100), type := GstType.INTRASTATE }) ∧
    (jsToLower c.shipping_address.state ≠ jsToLower COMPANY_INFO.address.state →
      calculateGST a c =
        { cgst := 0, sgst := 0, igst := a * (18 / 100)
          total := a * (18 / 100), type := GstType.INTERSTATE }) ∧
    (calculateGST a c).total = a * (18 / 100) :=
  by
  have hks : jsToLower COMPANY_INFO.address.state = "karnataka" := by decide
  rw [hks]
  by_cases h : jsToLower c.shipping_address.state = "karnataka"
  · refine ⟨fun _ => ?_, fun hne => absurd h hne, ?_⟩
    · simp only [calculateGST, h, if_true]
      simp only [GSTCalculation.mk.injEq]
      refine ⟨trivial, trivial, trivial, by ring, trivial⟩
    · simp only [calculateGST, h, if_true]
      ring
  · refine ⟨fun heq => absurd heq h, fun _ => ?_, ?_⟩
    · simp only [calculateGST, h, if_false]
    · simp only [calculateGST, h, if_false]

/-- Witness for C1: concrete evaluation at amount 1000 for an in-state
customer (matching only up to case) and an out-of-state customer. -/
theorem calculateGST_mode_split_and_total_witness :
    (0 : ℚ) ≤ 1000 ∧
    calculateGST 1000 sampleCustomerKA =
      { cgst := 90, sgst := 90, igst := 0, total := 180
        type := GstType.INTRASTATE } ∧
    calculateGST 1000 sampleCustomerMH =
      { cgst := 0, sgst := 0, igst := 180, total := 180
        type := GstType.INTERSTATE } :=
  by
  refine ⟨by norm_num, ?_, ?_⟩
  · have h :=
      (calculateGST_mode_split_and_total 1000 sampleCustomerKA
        (by norm_num)).1 (by decide)
    rw [h]
    simp only [GSTCalculation.mk.injEq]
    norm_num
  · have h :=
      (calculateGST_mode_split_and_total 1000 sampleCustomerMH
        (by norm_num)).2.1 (by decide)
    rw [h]
    simp only [GSTCalculation.mk.injEq]
    norm_num

/-! Store lookup lemmas shared by the lifecycle and ledger proofs. -/

lemma storeGet_delete_self {α : Type} (l : List (String × α)) (k : String) :
    storeGet (storeDelete l k) k = none := by
  induction l with
  | nil => rfl
  | cons kv rest ih =>
    obtain ⟨a, b⟩ := kv
    simp only [storeDelete, storeGet, List.filter_cons] at ih ⊢
    by_cases h : a = k
    · simp only [h, bne_self_eq_false, Bool.false_eq_true, if_false]
      exact ih
    · have h1 : (a != k) = true := bne_iff_ne.mpr h
      have h2 : (k == a) = false := beq_eq_false_iff_ne.mpr (Ne.symm h)
      simp only [h1, if_true, List.lookup_cons, h2]
      exact ih

lemma storeGet_delete_ne {α : Type} (l : List (String × α)) (k k' : String)
    (h : k' ≠ k) : storeGet (storeDelete l k) k' = storeGet l k' := by
  induction l with
  | nil => rfl
  | cons kv rest ih =>
    obtain ⟨a, b⟩ := kv
    simp only [storeDelete, storeGet, List.filter_cons] at ih ⊢
    by_cases hk : a = k
    · have h1 : (a != k) = false := by simp [bne_iff_ne, hk]
      have h2 : (k' == a) = false := beq_eq_false_iff_ne.mpr (by rw [hk]; exact h)
      simp only [h1, Bool.false_eq_true, if_false, List.lookup_cons, h2]
      exact ih
    · have h1 : (a != k) = true := bne_iff_ne.mpr hk
      simp only [h1, if_true, List.lookup_cons]
      cases hbeq : (k' == a) with
      | true => rfl
      | false => exact ih

lemma storeGet_put_self {α : Type} (l : List (String × α)) (k : String)
    (v : α) : storeGet (storePut l k v) k = some v := by
  simp [storeGet, storePut, List.lookup_cons]

lemma storeGet_put_ne {α : Type} (l : List (String × α)) (k k' : String)
    (v : α) (h : k' ≠ k) :
    storeGet (storePut l k v) k' = storeGet l k' := by
  have h2 : (k' == k) = false := beq_eq_false_iff_ne.mpr h
  simp only [storeGet, storePut, List.lookup_cons, h2]
  exact storeGet_delete_ne l k k' h

/-! Ledger operation sequences for the payment invariants. -/

/-- One ledger mutation against an invoice, from the two exported ledger
functions of the useSavedInvoices section; the generated id and clock
values of the call are carried by the operation. -/
inductive LedgerOp
  | add (payment : PaymentInput) (genId : String) (nowMs : Int) (nowIso : String)
  | remove (paymentId : String) (nowMs : Int) (nowIso : String)

/-- Per-invoice effect of one ledger operation. -/
def applyLedgerOp (invoice : SavedInvoice) : LedgerOp → SavedInvoice
  | LedgerOp.add p genId nowMs nowIso => addPaymentInv invoice p genId nowMs nowIso
  | LedgerOp.remove pid nowMs nowIso => removePaymentInv invoice pid nowMs nowIso

/-- Store-level effect of one ledger operation on a given invoice id. -/
def applyStoreLedgerOp (data : SavedInvoicesData) (invoiceId : String) :
    LedgerOp → SavedInvoicesData
  | LedgerOp.add p genId nowMs nowIso => addPayment data invoiceId p genId nowMs nowIso
  | LedgerOp.remove pid nowMs nowIso => removePayment data invoiceId pid nowMs nowIso

/-- Store-level effect of a sequence of ledger operations, all addressed
to the same invoice id. -/
def applyStoreLedgerOps (data : SavedInvoicesData) (invoiceId : String)
    (ops : List LedgerOp) : SavedInvoicesData :=
  ops.foldl (fun d op => applyStoreLedgerOp d invoiceId op) data

/-- Derived-ledger invariant of an invoice: totalPaid is the sum of the
recorded payment amounts, remainingAmount is finalPrice minus totalPaid,
and the status is Paid exactly when nothing remains. -/
def LedgerInvariant (invoice : SavedInvoice) : Prop :=
  invoice.totalPaid = sumAmounts invoice.payments ∧
  invoice.remainingAmount = invoice.finalPrice - invoice.totalPaid ∧
  (invoice.status = InvoiceStatus.Paid ↔ invoice.remainingAmount ≤ 0)

lemma recomputeStatus_paid_iff (st : InvoiceStatus) (r : ℚ) (d ms : Int) :
    recomputeStatus st r d ms = InvoiceStatus.Paid ↔ r ≤ 0 := by
  unfold recomputeStatus
  split_ifs with h1 h2 h3
  · simp [h1]
  · simp [h1]
  · simp [h1]
  · simp [h1, h2]

lemma ledger_op_invariant (invoice : SavedInvoice) (op : LedgerOp) :
    LedgerInvariant (applyLedgerOp invoice op) := by
  cases op with
  | add p genId nowMs nowIso =>
    exact ⟨rfl, rfl, recomputeStatus_paid_iff _ _ _ _⟩
  | remove pid nowMs nowIso =>
    exact ⟨rfl, rfl, recomputeStatus_paid_iff _ _ _ _⟩

lemma store_ledger_op_get (data : SavedInvoicesData) (invoiceId : String)
    (inv : SavedInvoice) (op : LedgerOp)
    (h : storeGet data.invoices invoiceId = some inv) :
    storeGet (applyStoreLedgerOp data invoiceId op).invoices invoiceId =
      some (applyLedgerOp inv op) := by
  cases op with
  | add p genId nowMs nowIso =>
    simp [applyStoreLedgerOp, addPayment, h, applyLedgerOp, storeGet_put_self]
  | remove pid nowMs nowIso =>
    simp [applyStoreLedgerOp, removePayment, h, applyLedgerOp, storeGet_put_self]

/-- C2: for every invoice present in the store and every nonempty finite
sequence of addPayment and removePayment operations applied to it, the
stored invoice afterwards has totalPaid equal to the sum of the amounts
of its current payments, remainingAmount equal to finalPrice minus
totalPaid, and status Paid exactly when remainingAmount is at most 0. -/
theorem ledger_correctness (data : SavedInvoicesData) (invoiceId : String)
    (inv : SavedInvoice) (ops : List LedgerOp)
    (hfound : storeGet data.invoices invoiceId = some inv)
    (hne : ops ≠ []) :
    ∃ inv', storeGet (applyStoreLedgerOps data invoiceId ops).invoices invoiceId
        = some inv' ∧ LedgerInvariant inv' := by
  induction ops generalizing data inv with
  | nil => exact absurd rfl hne
  | cons op rest ih =>
    have h1 := store_ledger_op_get data invoiceId inv op hfound
    cases rest with
    | nil =>
      exact ⟨applyLedgerOp inv op, by simpa [applyStoreLedgerOps] using h1,
        ledger_op_invariant inv op⟩
    | cons op2 rest2 =>
      have h2 := ih (applyStoreLedgerOp data invoiceId op) (applyLedgerOp inv op)
        h1 (by simp)
      simpa [applyStoreLedgerOps] using h2

/-- Sample invoice with an open balance of 100. -/
def sampleInvoice100 : SavedInvoice :=
  { id := "i1"
    invoiceNumber := { tag := "INV", date := ⟨26, 1, 10⟩, serialDigits := pad4LE 1 }
    quotationId := "q1"
    quotationNumber := { tag := "QT", date := ⟨26, 1, 9⟩, serialDigits := pad4LE 1 }
    customerId := "c1"
    customerName := "Acme Tools"
    parts := []
    totalBasePrice := 100
    discount := 0
    totalGST := 0
    finalPrice := 100
    status := InvoiceStatus.Sent
    createdAt := "t0"
    updatedAt := "t0"
    dueDate := 1000
    notes := ""
    gstType := GstType.INTERSTATE
    shippingAddressType := some ShipAddrType.shipping
    payments := []
    totalPaid := 0
    remainingAmount := 100
    serviceCharges := []
    totalServiceCharges := 0 }

/-- Sample invoice store holding sampleInvoice100. -/
def sampleStore1 : SavedInvoicesData :=
  { invoices := [("i1", sampleInvoice100)]
    last_updated := "t0"
    next_invoice_number := 2 }

/-- Sample payment input of 60. -/
def payment60 : PaymentInput :=
  { amount := 60, paymentDate := "2026-01-02", paymentMethod := PaymentMethod.Cash
    referenceNumber := none, notes := none }

/-- Sample payment input of 500, exceeding the open balance of
sampleInvoice100. -/
def payment500 : PaymentInput :=
  { amount := 500, paymentDate := "2026-01-02"
    paymentMethod := PaymentMethod.BankTransfer
    referenceNumber := none, notes := none }

/-- Witness for C2: one concrete addPayment of 60 against the stored
invoice with balance 100 leaves a stored invoice satisfying the ledger
invariant. -/
theorem ledger_correctness_witness :
    storeGet sampleStore1.invoices "i1" = some sampleInvoice100 ∧
    ([LedgerOp.add payment60 "p1" 0 "t1"] ≠ ([] : List LedgerOp)) ∧
    ∃ inv', storeGet (applyStoreLedgerOps sampleStore1 "i1"
        [LedgerOp.add payment60 "p1" 0 "t1"]).invoices "i1" = some inv' ∧
      LedgerInvariant inv' :=
  ⟨rfl, by simp,
    ledger_correctness sampleStore1 "i1" sampleInvoice100
      [LedgerOp.add payment60 "p1" 0 "t1"] rfl (by simp)⟩

/-- Sample stored invoice whose status does not reflect its ledger: a
zero balance with Draft status (reachable, for instance, by promoting a
quotation whose finalPrice is 0). -/
def invoiceDraftZero : SavedInvoice :=
  { sampleInvoice100 with
    finalPrice := 0
    remainingAmount := 0
    status := InvoiceStatus.Draft }

/-- Sample invoice store holding invoiceDraftZero. -/
def storeDraftZero : SavedInvoicesData :=
  { invoices := [("i1", invoiceDraftZero)]
    last_updated := "t0"
    next_invoice_number := 2 }

/-- Counterexample for C2 at the empty operation sequence: applying no
ledger operation returns the store unchanged, and the stored invoice has
remainingAmount at most 0 while its status is not Paid, so the claimed
status iff does not hold after this (empty) finite sequence. -/
theorem ledger_empty_sequence_cex :
    storeGet storeDraftZero.invoices "i1" = some invoiceDraftZero ∧
    applyStoreLedgerOps storeDraftZero "i1" [] = storeDraftZero ∧
    invoiceDraftZero.remainingAmount ≤ 0 ∧
    invoiceDraftZero.status ≠ InvoiceStatus.Paid ∧
    ¬ LedgerInvariant invoiceDraftZero := by
  refine ⟨rfl, rfl, le_refl 0, by decide, ?_⟩
  intro h
  exact absurd (h.2.2.mpr (le_refl 0)) (by decide)

/-- Amount rule of validateForm in the payment modal (src/unnamed
part_004): the form rejects a non-positive amount and an amount above the
remaining balance, and otherwise accepts. -/
def validateAmount (amount remainingAmount : ℚ) : Bool :=
  if amount ≤ 0 then false
  else if amount > remainingAmount then false
  else true

/-- Counterexample for C3: a payment of 500 against a stored invoice with
remainingAmount 100 violates the claimed bound yet is appended anyway —
the stored ledger gains the payment and the balance goes negative, so the
invoice is not left unchanged. -/
theorem addPayment_overpayment_accepted_cex :
    payment500.amount > sampleInvoice100.remainingAmount ∧
    storeGet (addPayment sampleStore1 "i1" payment500 "p1" 0 "t1").invoices "i1"
      = some (addPaymentInv sampleInvoice100 payment500 "p1" 0 "t1") ∧
    (addPaymentInv sampleInvoice100 payment500 "p1" 0 "t1").payments.length = 1 ∧
    (addPaymentInv sampleInvoice100 payment500 "p1" 0 "t1").remainingAmount = -400 ∧
    addPayment sampleStore1 "i1" payment500 "p1" 0 "t1" ≠ sampleStore1 := by
  refine ⟨by norm_num [payment500, sampleInvoice100], ?_, rfl, ?_, ?_⟩
  · simp [addPayment, sampleStore1, storeGet, List.lookup, storeGet_put_self]
  · show sampleInvoice100.finalPrice - sumAmounts (sampleInvoice100.payments ++
      [{ id := "p1", amount := payment500.amount
         paymentDate := payment500.paymentDate
         paymentMethod := payment500.paymentMethod
         referenceNumber := payment500.referenceNumber
         notes := payment500.notes, createdAt := "t1" }]) = -400
    norm_num [sampleInvoice100, payment500, sumAmounts]
  · intro hcontra
    have := congrArg SavedInvoicesData.last_updated hcontra
    simp [addPayment, sampleStore1, storeGet, List.lookup] at this

/-- C3 amended: addPayment itself performs no amount validation — for
every stored invoice and every payment input, whatever its amount, the
payment is appended to the ledger and the totals recomputed; the bound
0 < amount ≤ remainingAmount is enforced only by the payment form
(validateAmount), which accepts exactly the amounts inside the bound. -/
theorem addPayment_appends_without_validation (data : SavedInvoicesData)
    (invoiceId : String) (inv : SavedInvoice) (payment : PaymentInput)
    (genId : String) (nowMs : Int) (nowIso : String)
    (hfound : storeGet data.invoices invoiceId = some inv) :
    storeGet (addPayment data invoiceId payment genId nowMs nowIso).invoices
        invoiceId = some (addPaymentInv inv payment genId nowMs nowIso) ∧
    (addPaymentInv inv payment genId nowMs nowIso).payments =
      inv.payments ++
        [{ id := genId, amount := payment.amount
           paymentDate := payment.paymentDate
           paymentMethod := payment.paymentMethod
           referenceNumber := payment.referenceNumber
           notes := payment.notes, createdAt := nowIso }] ∧
    (∀ a r : ℚ, validateAmount a r = true ↔ 0 < a ∧ a ≤ r) := by
  refine ⟨?_, rfl, ?_⟩
  · simp [addPayment, hfound, storeGet_put_self]
  · intro a r
    unfold validateAmount
    split_ifs with h1 h2
    · simp only [Bool.false_eq_true, false_iff]
      rintro ⟨hpos, _⟩
      exact absurd hpos (not_lt.mpr h1)
    · simp only [Bool.false_eq_true, false_iff]
      rintro ⟨_, hle⟩
      exact absurd h2 (not_lt.mpr hle)
    · constructor
      · intro _
        exact ⟨lt_of_not_le h1, not_lt.mp h2⟩
      · intro _
        rfl

/-- Witness for C3 amended: the oversized payment of 500 is appended to
the stored invoice with balance 100, and validateAmount accepts exactly
the in-bound amounts at a sample point. -/
theorem addPayment_appends_without_validation_witness :
    storeGet sampleStore1.invoices "i1" = some sampleInvoice100 ∧
    (storeGet (addPayment sampleStore1 "i1" payment500 "p2" 0 "t1").invoices "i1"
      = some (addPaymentInv sampleInvoice100 payment500 "p2" 0 "t1") ∧
    (addPaymentInv sampleInvoice100 payment500 "p2" 0 "t1").payments =
      sampleInvoice100.payments ++
        [{ id := "p2", amount := payment500.amount
           paymentDate := payment500.paymentDate
           paymentMethod := payment500.paymentMethod
           referenceNumber := payment500.referenceNumber
           notes := payment500.notes, createdAt := "t1" }] ∧
    (∀ a r : ℚ, validateAmount a r = true ↔ 0 < a ∧ a ≤ r)) :=
  ⟨rfl, addPayment_appends_without_validation sampleStore1 "i1" sampleInvoice100
    payment500 "p2" 0 "t1" rfl⟩

/-- C10: addPayment and removePayment on an invoice id absent from the
store return the store unchanged — a silent no-op with no error signal. -/
theorem ledger_ops_missing_invoice_noop (data : SavedInvoicesData)
    (invoiceId : String) (payment : PaymentInput) (genId paymentId : String)
    (nowMs : Int) (nowIso : String)
    (h : storeGet data.invoices invoiceId = none) :
    addPayment data invoiceId payment genId nowMs nowIso = data ∧
    removePayment data invoiceId paymentId nowMs nowIso = data := by
  constructor
  · simp [addPayment, h]
  · simp [removePayment, h]

/-- Witness for C10: concrete no-ops against a store without the id. -/
theorem ledger_ops_missing_invoice_noop_witness :
    storeGet sampleStore1.invoices "ghost" = none ∧
    (addPayment sampleStore1 "ghost" payment60 "p1" 0 "t1" = sampleStore1 ∧
     removePayment sampleStore1 "ghost" "p0" 0 "t1" = sampleStore1) :=
  ⟨rfl, ledger_ops_missing_invoice_noop sampleStore1 "ghost" payment60 "p1" "p0"
    0 "t1" rfl⟩

/-- Sample line item used by promotion, order and bulk-edit examples. -/
def samplePart : QuotationPart :=
  { id := "a", serialNumber := 1, fileName := "widget.stl", fileType := "stl"
    volume := 1, boundingBox := none, technology := some "t"
    material := some "m", quantity := 1, unitPrice := 7, totalPrice := 7
    gstAmount := 0, finalPrice := 7, comments := none }

/-- Sample quotation ready for promotion. -/
def sampleQuotation : SavedQuotation :=
  { id := "q1"
    quotationNumber := { tag := "QT", date := ⟨26, 1, 9⟩, serialDigits := pad4LE 1 }
    customerId := "c1"
    customerName := "Acme Tools"
    parts := [samplePart]
    totalBasePrice := 100
    discount := 0
    totalGST := 18
    finalPrice := 118
    status := QuotationStatus.Approved
    createdAt := "t0"
    updatedAt := "t0"
    notes := ""
    validUntil := "t30"
    gstType := GstType.INTERSTATE
    paymentTerms := some "Net 30"
    leadTime := none
    shippingAddressType := some ShipAddrType.shipping
    serviceCharges := []
    totalServiceCharges := 0 }

/-- Sample quotation store holding sampleQuotation. -/
def sampleQuotationsData : SavedQuotationsData :=
  { quotations := [("q1", sampleQuotation)]
    last_updated := "t0"
    next_quotation_number := 2 }

/-- Sample empty invoice store. -/
def emptyInvoicesData : SavedInvoicesData :=
  { invoices := [], last_updated := "t0", next_invoice_number := 1 }

/-- Sample empty order store. -/
def emptyOrdersData : OrdersData :=
  { orders := [], last_updated := "t0", next_order_number := 1 }

/-- C4: promoting a stored quotation removes its id from the quotation
store; the invoice store gains exactly one new invoice (present under the
fresh id, every other id unchanged) whose remainingAmount is the
quotation finalPrice, whose totalPaid is 0 and whose ledger is empty; and
the order store gains exactly one new order whose invoice back-reference
is the id of the new invoice. -/
theorem promotion_invariants (qData : SavedQuotationsData)
    (iData : SavedInvoicesData) (oData : OrdersData) (q : SavedQuotation)
    (invId ordId : String) (nowMs : Int) (nowIso : String) (d : DateStamp)
    (hq : storeGet qData.quotations q.id = some q)
    (hfreshInv : storeGet iData.invoices invId = none)
    (hfreshOrd : storeGet oData.orders ordId = none) :
    storeGet (createInvoiceFromQuotation qData iData oData q invId ordId
        nowMs nowIso d).1.quotations q.id = none ∧
    (createInvoiceFromQuotation qData iData oData q invId ordId
        nowMs nowIso d).2.2.2 = invId ∧
    (∃ inv, storeGet (createInvoiceFromQuotation qData iData oData q invId
          ordId nowMs nowIso d).2.1.invoices invId = some inv ∧
      inv.remainingAmount = q.finalPrice ∧ inv.totalPaid = 0 ∧
      inv.payments = [] ∧ inv.quotationId = q.id ∧
      (∀ k, k ≠ invId →
        storeGet (createInvoiceFromQuotation qData iData oData q invId ordId
            nowMs nowIso d).2.1.invoices k = storeGet iData.invoices k) ∧
      ∃ o, storeGet (createInvoiceFromQuotation qData iData oData q invId
            ordId nowMs nowIso d).2.2.1.orders ordId = some o ∧
        o.invoiceId = invId ∧
        (∀ k, k ≠ ordId →
          storeGet (createInvoiceFromQuotation qData iData oData q invId
              ordId nowMs nowIso d).2.2.1.orders k = storeGet oData.orders k)) := by
  refine ⟨storeGet_delete_self _ _, rfl, ?_⟩
  refine ⟨_, storeGet_put_self _ _ _, rfl, rfl, rfl, rfl, ?_, ?_⟩
  · intro k hk
    exact storeGet_put_ne _ _ _ _ hk
  · refine ⟨_, storeGet_put_self _ _ _, rfl, ?_⟩
    intro k hk
    exact storeGet_put_ne _ _ _ _ hk

/-- Witness for C4: concrete promotion of the sample quotation out of a
one-element quotation store into empty invoice and order stores. -/
theorem promotion_invariants_witness :
    storeGet sampleQuotationsData.quotations sampleQuotation.id =
      some sampleQuotation ∧
    storeGet emptyInvoicesData.invoices "inv1" = none ∧
    storeGet emptyOrdersData.orders "ord1" = none ∧
    (storeGet (createInvoiceFromQuotation sampleQuotationsData emptyInvoicesData
        emptyOrdersData sampleQuotation "inv1" "ord1" 0 "t1"
        ⟨26, 1, 10⟩).1.quotations sampleQuotation.id = none ∧
    (createInvoiceFromQuotation sampleQuotationsData emptyInvoicesData
        emptyOrdersData sampleQuotation "inv1" "ord1" 0 "t1"
        ⟨26, 1, 10⟩).2.2.2 = "inv1" ∧
    (∃ inv, storeGet (createInvoiceFromQuotation sampleQuotationsData
          emptyInvoicesData emptyOrdersData sampleQuotation "inv1" "ord1" 0
          "t1" ⟨26, 1, 10⟩).2.1.invoices "inv1" = some inv ∧
      inv.remainingAmount = sampleQuotation.finalPrice ∧ inv.totalPaid = 0 ∧
      inv.payments = [] ∧ inv.quotationId = sampleQuotation.id ∧
      (∀ k, k ≠ "inv1" →
        storeGet (createInvoiceFromQuotation sampleQuotationsData
            emptyInvoicesData emptyOrdersData sampleQuotation "inv1" "ord1" 0
            "t1" ⟨26, 1, 10⟩).2.1.invoices k =
          storeGet emptyInvoicesData.invoices k) ∧
      ∃ o, storeGet (createInvoiceFromQuotation sampleQuotationsData
            emptyInvoicesData emptyOrdersData sampleQuotation "inv1" "ord1" 0
            "t1" ⟨26, 1, 10⟩).2.2.1.orders "ord1" = some o ∧
        o.invoiceId = "inv1" ∧
        (∀ k, k ≠ "ord1" →
          storeGet (createInvoiceFromQuotation sampleQuotationsData
              emptyInvoicesData emptyOrdersData sampleQuotation "inv1" "ord1"
              0 "t1" ⟨26, 1, 10⟩).2.2.1.orders k =
            storeGet emptyOrdersData.orders k))) :=
  ⟨rfl, rfl, rfl,
    promotion_invariants sampleQuotationsData emptyInvoicesData emptyOrdersData
      sampleQuotation "inv1" "ord1" 0 "t1" ⟨26, 1, 10⟩ rfl rfl rfl⟩

/-- Reduction of an invoice part to its production fields, as performed
field by field inside createOrder (no pricing field survives). -/
def toOrderPart (part : QuotationPart) : OrderPart :=
  { id := part.id
    serialNumber := part.serialNumber
    fileName := part.fileName
    fileType := part.fileType
    volume := part.volume
    boundingBox := part.boundingBox
    technology := part.technology
    material := part.material
    quantity := part.quantity
    comments := part.comments }

/-- Sample invoice carrying a priced service charge. -/
def sampleInvoiceSC : SavedInvoice :=
  { sampleInvoice100 with
    parts := [samplePart]
    serviceCharges := [{ id := "sc1", description := "rush handling", amount := 50 }]
    totalServiceCharges := 50 }

/-- Counterexample for C9: creating an order from an invoice holding a
service charge of amount 50 produces an order that still carries that
amount (and the 50 total), so order service charges are not reduced to
descriptions only. -/
theorem order_keeps_service_charge_amounts_cex :
    (storeGet ((createOrder emptyOrdersData sampleInvoiceSC "o1" "t1"
        ⟨26, 1, 10⟩).1).orders "o1").map (fun o => o.serviceCharges) =
      some [{ id := "sc1", description := "rush handling", amount := 50 }] ∧
    (storeGet ((createOrder emptyOrdersData sampleInvoiceSC "o1" "t1"
        ⟨26, 1, 10⟩).1).orders "o1").map (fun o => o.totalServiceCharges) =
      some 50 ∧
    (50 : ℚ) ≠ 0 := by
  refine ⟨?_, ?_, by norm_num⟩
  · rw [show storeGet ((createOrder emptyOrdersData sampleInvoiceSC "o1" "t1"
        ⟨26, 1, 10⟩).1).orders "o1" = _ from storeGet_put_self _ _ _]
    rfl
  · rw [show storeGet ((createOrder emptyOrdersData sampleInvoiceSC "o1" "t1"
        ⟨26, 1, 10⟩).1).orders "o1" = _ from storeGet_put_self _ _ _]
    rfl

/-- C9 amended: every order created from an invoice carries the invoice
parts reduced by toOrderPart to production-relevant fields (the OrderPart
record has no pricing fields), while its service charges are copied
verbatim from the invoice, amounts included, together with
totalServiceCharges; the order back-references the invoice id. -/
theorem createOrder_part_and_charge_content (oData : OrdersData)
    (invoice : SavedInvoice) (orderId : String) (nowIso : String)
    (d : DateStamp) :
    ∃ o, storeGet ((createOrder oData invoice orderId nowIso d).1).orders
        orderId = some o ∧
      o.parts = invoice.parts.map toOrderPart ∧
      o.serviceCharges = invoice.serviceCharges ∧
      o.totalServiceCharges = invoice.totalServiceCharges ∧
      o.invoiceId = invoice.id :=
  ⟨_, storeGet_put_self _ _ _, rfl, rfl, rfl, rfl⟩

/-! Bulk edit branch conditions and outcomes. -/

/-- First branch condition of handleUpdateParts: a quantity on the update,
a selected customer, and truthy material and technology on the merged
part. -/
def bulkCond1 (c : Option Customer) (u : PartUpdate) (merged : QuotationPart) :
    Bool :=
  u.quantity.isSome && c.isSome && truthy merged.material
    && truthy merged.technology

/-- Second branch condition of handleUpdateParts: a selected customer, a
truthy material on the update and a truthy technology on the merged part. -/
def bulkCond2 (c : Option Customer) (u : PartUpdate) (merged : QuotationPart) :
    Bool :=
  c.isSome && truthyUpd u.material && truthy merged.technology

/-- Third branch condition of handleUpdateParts: a truthy technology on
the update without a truthy material. -/
def bulkCond3 (u : PartUpdate) : Bool :=
  truthyUpd u.technology && !(truthyUpd u.material)

/-- Full pricing recompute applied by the first two branches of
handleUpdateParts: unit price from the merged part volume and the catalog
rate of its technology and material, line total at the given quantity,
tax from calculateGST and final price as their sum. -/
def repriceAt (catalog : TechnologiesData) (c : Customer)
    (merged : QuotationPart) (q : ℚ) : QuotationPart :=
  let rate := catalog.rate (merged.technology.getD "") (merged.material.getD "")
  let unitPrice := merged.volume * rate
  let totalPrice := unitPrice * q
  let gstCalculation := calculateGST totalPrice c
  { merged with
    unitPrice := unitPrice, totalPrice := totalPrice
    gstAmount := gstCalculation.total
    finalPrice := totalPrice + gstCalculation.total }

lemma bulkEditPart_no_branch (catalog : TechnologiesData)
    (c : Option Customer) (updates : PartUpdate) (part : QuotationPart)
    (h1 : bulkCond1 c updates (applyUpdate part updates) = false)
    (h2 : bulkCond2 c updates (applyUpdate part updates) = false)
    (h3 : bulkCond3 updates = false) :
    bulkEditPart catalog c updates part = applyUpdate part updates := by
  cases c with
  | none =>
    unfold bulkCond3 at h3
    simp only [bulkEditPart, h3, Bool.false_eq_true, if_false]
  | some cst =>
    unfold bulkCond1 at h1
    unfold bulkCond2 at h2
    unfold bulkCond3 at h3
    simp only [Option.isSome_some, Bool.and_true, Bool.true_and] at h1 h2
    simp only [bulkEditPart, h1, h2, h3, Bool.false_eq_true, if_false]

lemma bulkEditPart_branch1 (catalog : TechnologiesData) (cst : Customer)
    (updates : PartUpdate) (part : QuotationPart)
    (hq : updates.quantity.isSome = true)
    (hm : truthy (applyUpdate part updates).material = true)
    (ht : truthy (applyUpdate part updates).technology = true) :
    bulkEditPart catalog (some cst) updates part =
      repriceAt catalog cst (applyUpdate part updates)
        (updates.quantity.getD (applyUpdate part updates).quantity) := by
  simp [bulkEditPart, hq, hm, ht, repriceAt]

lemma bulkEditPart_branch2 (catalog : TechnologiesData) (cst : Customer)
    (updates : PartUpdate) (part : QuotationPart)
    (hq : updates.quantity = none)
    (hm : truthyUpd updates.material = true)
    (ht : truthy (applyUpdate part updates).technology = true) :
    bulkEditPart catalog (some cst) updates part =
      repriceAt catalog cst (applyUpdate part updates)
        (applyUpdate part updates).quantity := by
  have hmerged : (applyUpdate part updates).material.getD "" =
      updStr updates.material := by
    cases hcase : updates.material with
    | none => rw [hcase] at hm; simp [truthyUpd] at hm
    | some o =>
      cases o with
      | none => rw [hcase] at hm; simp [truthyUpd, truthy] at hm
      | some str => simp [applyUpdate, hcase, updStr]
  simp [bulkEditPart, hq, hm, ht, repriceAt, hmerged]

lemma bulkEditPart_zeroes (catalog : TechnologiesData)
    (customer : Option Customer) (updates : PartUpdate) (part : QuotationPart)
    (h1 : bulkCond1 customer updates (applyUpdate part updates) = false)
    (h3 : bulkCond3 updates = true) :
    bulkEditPart catalog customer updates part =
      zeroPricing (applyUpdate part updates) := by
  have hpair : truthyUpd updates.technology = true ∧
      truthyUpd updates.material = false := by
    revert h3
    unfold bulkCond3
    cases truthyUpd updates.technology <;>
      cases truthyUpd updates.material <;> simp
  cases customer with
  | none =>
    simp [bulkEditPart, hpair.1, hpair.2]
  | some cst =>
    unfold bulkCond1 at h1
    simp only [Option.isSome_some, Bool.and_true, Bool.true_and] at h1
    simp [bulkEditPart, h1, hpair.1, hpair.2]

/-- Sample catalog distinguishing the two sample materials. -/
def catalogM : TechnologiesData :=
  ⟨fun _ m => if m = "m2" then 5 else 2⟩

/-- Counterexample for C5: on the sample part (stored unitPrice 7, volume
1) a bulk quantity update to 3 with catalog rate 2 leaves unitPrice 2 and
lineTotal 6, not the claimed existing-unit-price values 7 and 21 — the
quantity rule rebuilds the whole pricing block from volume times rate;
and a bulk update carrying quantity 3 and material m2 (rate 5) produces
lineTotal 15, combining the new quantity with the new material rate in
one pass. -/
theorem bulk_edit_quantity_rule_cex :
    ((handleUpdateParts [samplePart] ["a"] { quantity := some 3 }
        (some sampleCustomerMH) catalogM).map (fun p => p.unitPrice) = [2]) ∧
    samplePart.unitPrice = 7 ∧ ((2 : ℚ) ≠ 7) ∧
    ((handleUpdateParts [samplePart] ["a"] { quantity := some 3 }
        (some sampleCustomerMH) catalogM).map (fun p => p.totalPrice) = [6]) ∧
    ((6 : ℚ) ≠ 7 * 3) ∧
    ((handleUpdateParts [samplePart] ["a"]
        { quantity := some 3, material := some (some "m2") }
        (some sampleCustomerMH) catalogM).map (fun p => p.totalPrice) = [15]) ∧
    ((15 : ℚ) ≠ 7 * 3) := by
  have hres1 : handleUpdateParts [samplePart] ["a"] { quantity := some 3 }
      (some sampleCustomerMH) catalogM =
      [bulkEditPart catalogM (some sampleCustomerMH) { quantity := some 3 }
        samplePart] := by
    simp [handleUpdateParts, samplePart]
  have hres2 : handleUpdateParts [samplePart] ["a"]
      { quantity := some 3, material := some (some "m2") }
      (some sampleCustomerMH) catalogM =
      [bulkEditPart catalogM (some sampleCustomerMH)
        { quantity := some 3, material := some (some "m2") } samplePart] := by
    simp [handleUpdateParts, samplePart]
  have hb1 := bulkEditPart_branch1 catalogM sampleCustomerMH
    { quantity := some 3 } samplePart (by decide) (by decide) (by decide)
  have hb2 := bulkEditPart_branch1 catalogM sampleCustomerMH
    { quantity := some 3, material := some (some "m2") } samplePart
    (by decide) (by decide) (by decide)
  refine ⟨?_, rfl, by norm_num, ?_, by norm_num, ?_, by norm_num⟩
  · rw [hres1, List.map_cons, List.map_nil, hb1]
    norm_num [repriceAt, applyUpdate, samplePart, catalogM] <;> decide
  · rw [hres1, List.map_cons, List.map_nil, hb1]
    norm_num [repriceAt, applyUpdate, samplePart, catalogM] <;> decide
  · rw [hres2, List.map_cons, List.map_nil, hb2]
    norm_num [repriceAt, applyUpdate, samplePart, catalogM] <;> decide

/-- C5 amended: handleUpdateParts applies at most one branch per selected
part, in order: (a) when the update carries a quantity and a customer is
selected and the merged part has truthy material and technology, the full
pricing block — unitPrice included — is recomputed from the part volume,
the catalog rate of the merged (hence possibly just-updated) technology
and material, and the new quantity, so quantity and material present
together are combined in this single pass; (b) else when the update
carries a truthy material and the merged part has a truthy technology
(customer selected), the same full recompute runs at the existing
quantity; (c) else — whenever the quantity recompute did not fire — an
update carrying a truthy technology and no truthy material zeroes the
pricing block, with or without a selected customer and whether or not a
quantity is present on the update. -/
theorem bulk_edit_branch_semantics (parts : List QuotationPart)
    (partIds : List String) (updates : PartUpdate) (c : Customer)
    (catalog : TechnologiesData) (i : ℕ) (part : QuotationPart)
    (hi : parts[i]? = some part)
    (hsel : partIds.contains part.id = true) :
    (updates.quantity.isSome = true →
      truthy (applyUpdate part updates).material = true →
      truthy (applyUpdate part updates).technology = true →
      (handleUpdateParts parts partIds updates (some c) catalog)[i]? =
        some (repriceAt catalog c (applyUpdate part updates)
          (updates.quantity.getD (applyUpdate part updates).quantity))) ∧
    (updates.quantity = none →
      truthyUpd updates.material = true →
      truthy (applyUpdate part updates).technology = true →
      (handleUpdateParts parts partIds updates (some c) catalog)[i]? =
        some (repriceAt catalog c (applyUpdate part updates)
          (applyUpdate part updates).quantity)) ∧
    (∀ (customer : Option Customer),
      bulkCond1 customer updates (applyUpdate part updates) = false →
      bulkCond3 updates = true →
      (handleUpdateParts parts partIds updates customer catalog)[i]? =
        some (zeroPricing (applyUpdate part updates))) := by
  have hmem : part.id ∈ partIds := by simpa using hsel
  have hmap : (handleUpdateParts parts partIds updates (some c) catalog)[i]? =
      some (bulkEditPart catalog (some c) updates part) := by
    simp [handleUpdateParts, List.getElem?_map, hi, hmem]
  refine ⟨?_, ?_, ?_⟩
  · intro hq hm ht
    rw [hmap, bulkEditPart_branch1 catalog c updates part hq hm ht]
  · intro hq hm ht
    rw [hmap, bulkEditPart_branch2 catalog c updates part hq hm ht]
  · intro customer h1 h3
    have hmapc : (handleUpdateParts parts partIds updates customer
        catalog)[i]? = some (bulkEditPart catalog customer updates part) := by
      simp [handleUpdateParts, List.getElem?_map, hi, hmem]
    rw [hmapc, bulkEditPart_zeroes catalog customer updates part h1 h3]

/-- Witness for C5 amended: the branches evaluated on the sample part —
quantity 3 repricing at rate 2; material m2 repricing at rate 5; a
bulk-panel update carrying technology and quantity with material
explicitly unset zeroing the block under a selected customer; and a
technology-only update zeroing the block with no customer at all. -/
theorem bulk_edit_branch_semantics_witness :
    ([samplePart][0]? = some samplePart) ∧
    (["a"].contains samplePart.id = true) ∧
    ((handleUpdateParts [samplePart] ["a"] { quantity := some 3 }
        (some sampleCustomerMH) catalogM)[0]? =
      some (repriceAt catalogM sampleCustomerMH
        (applyUpdate samplePart { quantity := some 3 }) 3)) ∧
    ((handleUpdateParts [samplePart] ["a"] { material := some (some "m2") }
        (some sampleCustomerMH) catalogM)[0]? =
      some (repriceAt catalogM sampleCustomerMH
        (applyUpdate samplePart { material := some (some "m2") }) 1)) ∧
    ((handleUpdateParts [samplePart] ["a"]
        { technology := some (some "t2"), material := some none
          quantity := some 4 } (some sampleCustomerMH) catalogM)[0]? =
      some (zeroPricing (applyUpdate samplePart
        { technology := some (some "t2"), material := some none
          quantity := some 4 }))) ∧
    ((handleUpdateParts [samplePart] ["a"] { technology := some (some "t2") }
        none catalogM)[0]? =
      some (zeroPricing (applyUpdate samplePart
        { technology := some (some "t2") }))) := by
  refine ⟨rfl, rfl, ?_, ?_, ?_, ?_⟩
  · exact (bulk_edit_branch_semantics [samplePart] ["a"] { quantity := some 3 }
      sampleCustomerMH catalogM 0 samplePart rfl rfl).1 rfl rfl rfl
  · exact (bulk_edit_branch_semantics [samplePart] ["a"]
      { material := some (some "m2") } sampleCustomerMH catalogM 0 samplePart
      rfl rfl).2.1 rfl rfl rfl
  · exact (bulk_edit_branch_semantics [samplePart] ["a"]
      { technology := some (some "t2"), material := some none
        quantity := some 4 } sampleCustomerMH catalogM 0 samplePart
      rfl rfl).2.2 (some sampleCustomerMH) rfl rfl
  · exact (bulk_edit_branch_semantics [samplePart] ["a"]
      { technology := some (some "t2") } sampleCustomerMH catalogM 0 samplePart
      rfl rfl).2.2 none rfl rfl

/-- C6: handleUpdateParts returns the complete replacement list — same
length, every part whose id is outside the selected id list returned
identically (all fields, serial number included), and every selected part
matching none of the three branch conditions returned as the plain merge
of the explicitly updated fields. -/
theorem bulk_edit_frame (parts : List QuotationPart) (partIds : List String)
    (updates : PartUpdate) (customer : Option Customer)
    (catalog : TechnologiesData) :
    (handleUpdateParts parts partIds updates customer catalog).length =
      parts.length ∧
    (∀ (i : ℕ) (part : QuotationPart), parts[i]? = some part →
      partIds.contains part.id = false →
      (handleUpdateParts parts partIds updates customer catalog)[i]? =
        some part) ∧
    (∀ (i : ℕ) (part : QuotationPart), parts[i]? = some part →
      partIds.contains part.id = true →
      bulkCond1 customer updates (applyUpdate part updates) = false →
      bulkCond2 customer updates (applyUpdate part updates) = false →
      bulkCond3 updates = false →
      (handleUpdateParts parts partIds updates customer catalog)[i]? =
        some (applyUpdate part updates)) := by
  refine ⟨by simp [handleUpdateParts], ?_, ?_⟩
  · intro i part hi hout
    have hnot : part.id ∉ partIds := by simpa using hout
    simp [handleUpdateParts, List.getElem?_map, hi, hnot]
  · intro i part hi hsel h1 h2 h3
    have hmem : part.id ∈ partIds := by simpa using hsel
    simp [handleUpdateParts, List.getElem?_map, hi, hmem,
      bulkEditPart_no_branch catalog customer updates part h1 h2 h3]

/-- Witness for C6: a two-part list where only the selected part changes;
the unselected part comes back identical and a selected part hit by a
branchless update (a bare quantity with no customer) is returned as the
plain merge. -/
theorem bulk_edit_frame_witness :
    ([samplePart, { samplePart with id := "b", serialNumber := 2 }][1]? =
      some { samplePart with id := "b", serialNumber := 2 }) ∧
    (["a"].contains "b" = false) ∧
    ((handleUpdateParts [samplePart,
        { samplePart with id := "b", serialNumber := 2 }] ["a"]
        { quantity := some 3 } none catalogM)[1]? =
      some { samplePart with id := "b", serialNumber := 2 }) ∧
    ((handleUpdateParts [samplePart,
        { samplePart with id := "b", serialNumber := 2 }] ["a"]
        { quantity := some 3 } none catalogM)[0]? =
      some (applyUpdate samplePart { quantity := some 3 })) := by
  refine ⟨rfl, rfl, ?_, ?_⟩
  · exact (bulk_edit_frame [samplePart,
      { samplePart with id := "b", serialNumber := 2 }] ["a"]
      { quantity := some 3 } none catalogM).2.1 1
      { samplePart with id := "b", serialNumber := 2 } rfl rfl
  · exact (bulk_edit_frame [samplePart,
      { samplePart with id := "b", serialNumber := 2 }] ["a"]
      { quantity := some 3 } none catalogM).2.2 0 samplePart rfl rfl rfl rfl rfl

/-- Sample part with stale pricing and volume 2, for the no-customer
behaviour. -/
def samplePartVol2 : QuotationPart :=
  { samplePart with
    volume := 2
    unitPrice := 10
    totalPrice := 10
    gstAmount := 9 / 5
    finalPrice := 59 / 5 }

/-- Sample catalog with constant rate 7. -/
def catalog7 : TechnologiesData :=
  ⟨fun _ _ => 7⟩

/-- Counterexample for C8: with no customer selected, a quantity change
to 2 overwrites gstAmount with 0 and finalPrice with the new line total
(previous values 9/5 and 59/5 are not kept), and a material change is a
complete no-op — the part is returned unchanged, its unitPrice staying 10
although a recompute at the new material rate would give 14. -/
theorem no_customer_update_cex :
    (quantityChangeFlow catalog7 none samplePartVol2 2).gstAmount = 0 ∧
    samplePartVol2.gstAmount = 9 / 5 ∧ ((0 : ℚ) ≠ 9 / 5) ∧
    (quantityChangeFlow catalog7 none samplePartVol2 2).finalPrice = 20 ∧
    samplePartVol2.finalPrice = 59 / 5 ∧ ((20 : ℚ) ≠ 59 / 5) ∧
    materialChangeFlow catalog7 none samplePartVol2 "m2" = samplePartVol2 ∧
    samplePartVol2.unitPrice = 10 ∧
    samplePartVol2.volume * catalog7.rate "t" "m2" = 14 ∧ ((10 : ℚ) ≠ 14) := by
  refine ⟨rfl, rfl, by norm_num, ?_, rfl, by norm_num, rfl, rfl, ?_, by norm_num⟩
  · show samplePartVol2.unitPrice * 2 = 20
    norm_num [samplePartVol2, samplePart]
  · norm_num [samplePartVol2, samplePart, catalog7]

/-- C8 amended: with no customer selected, a quantity change still
updates the line total to unitPrice times the new quantity but sets
gstAmount to 0 and finalPrice to that same line total, overwriting the
previous tax values rather than preserving them (unitPrice itself is left
as stored); a material change returns early and leaves the part entirely
unchanged, so neither unitPrice nor lineTotal updates. -/
theorem no_customer_change_behaviour (catalog : TechnologiesData)
    (part : QuotationPart) (q : ℚ) (m : String) :
    quantityChangeFlow catalog none part q =
      { part with
        quantity := q
        totalPrice := part.unitPrice * q
        gstAmount := 0
        finalPrice := part.unitPrice * q } ∧
    materialChangeFlow catalog none part m = part :=
  ⟨rfl, rfl⟩

/-! Document numbering lemmas. -/

lemma ofDigits_replicate_zero (k : ℕ) :
    Nat.ofDigits 10 (List.replicate k 0) = 0 := by
  induction k with
  | zero => rfl
  | succ n ih => simp [List.replicate, Nat.ofDigits_cons, ih]

/-- Padding does not change the value read back from the digits. -/
lemma extractSerial_pad4LE (n : ℕ) : Nat.ofDigits 10 (pad4LE n) = n := by
  unfold pad4LE
  rw [Nat.ofDigits_append, Nat.ofDigits_digits, ofDigits_replicate_zero]
  simp

lemma extractSerial_generateQuotationNumber (c : ℕ) (d : DateStamp) :
    extractSerial (generateQuotationNumber c d) = c :=
  extractSerial_pad4LE c

lemma extractSerial_generateInvoiceNumber (c : ℕ) (d : DateStamp) :
    extractSerial (generateInvoiceNumber c d) = c :=
  extractSerial_pad4LE c

lemma extractSerial_generateOrderNumber (c : ℕ) (d : DateStamp) :
    extractSerial (generateOrderNumber c d) = c :=
  extractSerial_pad4LE c

/-- Quotation store left behind by one new-document save step. -/
def stepStore (data : SavedQuotationsData) (step : SaveStep) :
    SavedQuotationsData :=
  { quotations := storePut data.quotations step.freshId
      (newQuotationRecord data { step.params with existingQuotationId := none }
        step.freshId step.nowIso step.validUntilIso step.date)
    last_updated := step.nowIso
    next_quotation_number := data.next_quotation_number + 1 }

lemma saveRun_cons (data : SavedQuotationsData) (step : SaveStep)
    (rest : List SaveStep) :
    saveRun data (step :: rest) =
      ((saveRun (stepStore data step) rest).1,
        generateQuotationNumber data.next_quotation_number step.date ::
          (saveRun (stepStore data step) rest).2) := by
  simp only [saveRun, saveQuotation, stepStore, storeGet_put_self,
    newQuotationRecord, List.singleton_append]

lemma saveRun_serials (data : SavedQuotationsData) (steps : List SaveStep) :
    (saveRun data steps).2.map extractSerial =
      List.range' data.next_quotation_number steps.length ∧
    (saveRun data steps).1.next_quotation_number =
      data.next_quotation_number + steps.length := by
  induction steps generalizing data with
  | nil => simp [saveRun]
  | cons st rest ih =>
    rw [saveRun_cons]
    have hstep : (stepStore data st).next_quotation_number =
        data.next_quotation_number + 1 := rfl
    have h := ih (stepStore data st)
    constructor
    · simp only [List.map_cons, extractSerial_generateQuotationNumber, h.1,
        hstep, List.length_cons]
      rfl
    · simp only [h.2, hstep, List.length_cons]
      omega

lemma deleteInvoice_order_counter (iData : SavedInvoicesData)
    (oData : OrdersData) (invId nowIso : String) :
    (deleteInvoice iData oData invId nowIso).2.next_order_number =
      oData.next_order_number := by
  cases h1 : storeGet iData.invoices invId with
  | none => simp [deleteInvoice, h1]
  | some inv =>
    cases h2 : oData.orders.find? (fun kv => kv.2.invoiceId == invId) with
    | none => simp [deleteInvoice, h1, h2]
    | some kv => simp [deleteInvoice, h1, h2]

/-- C7: over any run of new-document saves against a quotation store, the
serials read back from the issued numbers are exactly the consecutive
integers starting at the counter — strictly increasing, independent of
the calendar date of each call, never repeated — and each save advances
the counter by exactly 1; deleting a quotation leaves the counter
untouched. Likewise each invoice creation issues the current invoice
counter as its serial and advances that counter by 1, and deleting an
invoice (with its dependent order) leaves both the invoice and order
counters untouched. Likewise each order creation issues the current order
counter as its serial and advances that counter by 1, and deleting an
order leaves the order counter untouched. -/
theorem numbering_strictly_increasing (data : SavedQuotationsData)
    (steps : List SaveStep) :
    ((saveRun data steps).2.map extractSerial =
      List.range' data.next_quotation_number steps.length) ∧
    ((saveRun data steps).2.map extractSerial).Pairwise (· < ·) ∧
    ((saveRun data steps).1.next_quotation_number =
      data.next_quotation_number + steps.length) ∧
    (∀ (quotationId nowIso : String),
      (deleteQuotation (saveRun data steps).1 quotationId
        nowIso).next_quotation_number =
        (saveRun data steps).1.next_quotation_number) ∧
    (∀ (iData : SavedInvoicesData) (oData : OrdersData) (q : SavedQuotation)
        (invId ordId : String) (nowMs : Int) (nowIso : String) (d : DateStamp),
      ((createInvoiceFromQuotation data iData oData q invId ordId nowMs nowIso
          d).2.1.next_invoice_number = iData.next_invoice_number + 1) ∧
      (∃ inv, storeGet (createInvoiceFromQuotation data iData oData q invId
            ordId nowMs nowIso d).2.1.invoices invId = some inv ∧
        extractSerial inv.invoiceNumber = iData.next_invoice_number) ∧
      ((deleteInvoice iData oData invId nowIso).1.next_invoice_number =
        iData.next_invoice_number) ∧
      ((deleteInvoice iData oData invId nowIso).2.next_order_number =
        oData.next_order_number)) ∧
    (∀ (oData : OrdersData) (invoice : SavedInvoice)
        (orderId nowIso : String) (d : DateStamp),
      ((createOrder oData invoice orderId nowIso d).1.next_order_number =
        oData.next_order_number + 1) ∧
      (∃ o, storeGet (createOrder oData invoice orderId nowIso
            d).1.orders orderId = some o ∧
        extractSerial o.orderNumber = oData.next_order_number) ∧
      (∀ (oid nowIso2 : String),
        (deleteOrder oData oid nowIso2).next_order_number =
          oData.next_order_number)) := by
  refine ⟨(saveRun_serials data steps).1, ?_, (saveRun_serials data steps).2,
    fun _ _ => rfl, ?_, ?_⟩
  · rw [(saveRun_serials data steps).1]
    exact List.pairwise_lt_range' _ _
  · intro iData oData q invId ordId nowMs nowIso d
    exact ⟨rfl,
      ⟨_, storeGet_put_self _ _ _, extractSerial_generateInvoiceNumber _ _⟩,
      rfl, deleteInvoice_order_counter iData oData invId nowIso⟩
  · intro oData invoice orderId nowIso d
    exact ⟨rfl,
      ⟨_, storeGet_put_self _ _ _, extractSerial_generateOrderNumber _ _⟩,
      fun _ _ => rfl⟩

end BoltQuotation
